import Mathlib

/-!
Shallow embedding of the session-scoped triage workflow of
jimmyshah83/realtime-virtual-triage (backend/app): the LangGraph workflow
in agents.py, the physician matching rule (agents.py and main.py), the
in-memory session store (session_store.py, models.py) and the directory
loaders. Pure decision logic is translated directly; calls to the external
reasoning engine are modelled by passing the structured engine result as an
explicit argument, and wall-clock time is passed explicitly as an integer
number of hours.
-/

set_option autoImplicit false

namespace VTriage

/-- Medical coding information (agents.py class MedicalCodes). -/
structure MedicalCodes where
  snomed_codes : List String := []
  icd_codes : List String := []
deriving Repr, DecidableEq

/-- Structured patient information (agents.py class PatientInfo). -/
structure PatientInfo where
  name : Option String := none
  age : Option Int := none
  gender : Option String := none
  contact : Option String := none
  medical_history : List String := []
  medications : List String := []
  allergies : List String := []
deriving Repr, DecidableEq

/-- Directory entry for available physicians (agents.py class PhysicianInfo;
main.py declares the identical model). -/
structure PhysicianInfo where
  id : String
  name : String
  specialty : String
  location : String
  urgency_min : Int
  urgency_max : Int
  contact_phone : Option String := none
  contact_email : Option String := none
deriving Repr, DecidableEq

/-- Structured output from the triage agent (agents.py class
TriageAgentOutput). The pydantic constraint Field ge 1 le 5 on
urgency_score is carried as proof fields: a value of this type is by
construction schema-valid, exactly as a constructed pydantic model is. -/
structure TriageAgentOutput where
  symptoms : List String
  chief_complaint : String
  urgency_score : Int
  urgency_score_ge : 1 ≤ urgency_score
  urgency_score_le : urgency_score ≤ 5
  red_flags : List String := []
  assessment : String
  medical_codes : MedicalCodes
  handoff_ready : Bool

/-- Raw engine response for the triage stage, before pydantic validation:
the urgency field is an arbitrary integer. -/
structure RawTriageOutput where
  symptoms : List String
  chief_complaint : String
  urgency_score : Int
  red_flags : List String := []
  assessment : String
  medical_codes : MedicalCodes
  handoff_ready : Bool
deriving Repr

/-- Pydantic validation step performed by with_structured_output for the
triage schema: the ge 1 le 5 bound on urgency_score is checked and an
out-of-range response is rejected as a validation error, never coerced. -/
def validateTriageOutput (r : RawTriageOutput) : Except String TriageAgentOutput :=
  if h : 1 ≤ r.urgency_score ∧ r.urgency_score ≤ 5 then
    Except.ok
      { symptoms := r.symptoms
        chief_complaint := r.chief_complaint
        urgency_score := r.urgency_score
        urgency_score_ge := h.1
        urgency_score_le := h.2
        red_flags := r.red_flags
        assessment := r.assessment
        medical_codes := r.medical_codes
        handoff_ready := r.handoff_ready }
  else
    Except.error "urgency_score out of range 1..5"

/-- Closed set of care-setting labels (agents.py ClinicalGuidanceOutput,
field recommended_setting, a Literal of five labels). -/
inductive CareSetting where
  | emergencyDepartment
  | urgentCare
  | primaryCare
  | selfCare
  | specialist
deriving Repr, DecidableEq

/-- Wire label of a care setting, as it appears in the Literal type. -/
def CareSetting.label : CareSetting → String
  | .emergencyDepartment => "Emergency Department"
  | .urgentCare => "Urgent Care"
  | .primaryCare => "Primary Care"
  | .selfCare => "Self-care"
  | .specialist => "Specialist"

/-- Decision and guidance from the clinical guidance agent (agents.py class
ClinicalGuidanceOutput). -/
structure ClinicalGuidanceOutput where
  referral_required : Bool
  recommended_setting : CareSetting
  guidance_summary : String
  next_steps : List String := []
deriving Repr, DecidableEq

/-- Structured referral package output (agents.py class
ReferralPackageOutput); urgency bounds carried as proof fields as in
TriageAgentOutput. -/
structure ReferralPackageOutput where
  demographics : PatientInfo
  chief_complaint : String
  history_present_illness : String
  symptoms : List String
  assessment : String
  urgency_score : Int
  urgency_score_ge : 1 ≤ urgency_score
  urgency_score_le : urgency_score ≤ 5
  red_flags : List String := []
  medical_codes : MedicalCodes
  disposition : String
  referral_notes : String

/-- State for the multi-agent triage workflow (agents.py TriageAgentState,
a TypedDict with total equals False: absent keys are modelled as none or
as the default that state.get supplies at each use site). -/
structure TriageAgentState where
  symptoms : List String := []
  patient_info : PatientInfo := {}
  urgency_score : Option Int := none
  red_flags : List String := []
  medical_codes : Option MedicalCodes := none
  referral_package : Option ReferralPackageOutput := none
  current_agent : Option String := none
  handoff_ready : Bool := false
  chief_complaint : Option String := none
  assessment : Option String := none
  referral_required : Bool := false
  recommended_setting : Option String := none
  guidance_summary : Option String := none
  next_steps : List String := []
  selected_physician : Option PhysicianInfo := none

/- ---------------------------------------------------------------------
Physician directory matching (agents.py def select physician under the
underscore-prefixed name, and main.py endpoint match physician).
--------------------------------------------------------------------- -/

/-- Lowercasing as python str.lower performs it on these ASCII labels:
every character mapped to its lowercase form. Defined over the character
list so that concrete instances reduce. -/
def lowerStr (s : String) : String := String.mk (s.data.map Char.toLower)

/-- Fixed lookup from a lowercased care-setting label to the preferred
specialty (the preferred_specialty_map dict literal; dict get with default
empty string is modelled by Option). -/
def preferredSpecialtyMap (setting : String) : Option String :=
  if setting = "primary care" then some "Primary Care"
  else if setting = "self-care" then some "Primary Care"
  else if setting = "urgent care" then some "Urgent Care"
  else if setting = "emergency department" then some "Emergency Medicine"
  else if setting = "specialist" then some "Cardiology"
  else none

/-- Eligibility filter: entries whose inclusive range contains the score. -/
def eligibleEntries (directory : List PhysicianInfo) (urgency_score : Int) :
    List PhysicianInfo :=
  directory.filter (fun p =>
    decide (p.urgency_min ≤ urgency_score) && decide (urgency_score ≤ p.urgency_max))

/-- Translation of agents.py select physician: early return none on an
empty directory; preferred specialty from the lowercased setting with the
empty string as the dict-get default (and for a falsy setting string);
linear scan of the eligible list for a case-insensitive specialty match;
fallback to the first eligible entry, or none. -/
def selectPhysician (directory : List PhysicianInfo) (urgency_score : Int)
    (recommended_setting : String) : Option PhysicianInfo :=
  if directory = [] then none
  else
    let preferred : String :=
      if recommended_setting ≠ "" then
        (preferredSpecialtyMap (lowerStr recommended_setting)).getD ""
      else ""
    let eligible := eligibleEntries directory urgency_score
    if preferred ≠ "" then
      match eligible.find? (fun p => lowerStr p.specialty = lowerStr preferred) with
      | some p => some p
      | none => eligible.head?
    else
      eligible.head?

/-- Translation of the main.py endpoint match physician: identical logic
without the empty-directory early return (the setting is lowercased and
looked up unconditionally). -/
def matchPhysician (directory : List PhysicianInfo) (urgency : Int)
    (setting : String) : Option PhysicianInfo :=
  let preferred : String := (preferredSpecialtyMap (lowerStr setting)).getD ""
  let eligible := eligibleEntries directory urgency
  if preferred ≠ "" then
    match eligible.find? (fun p => lowerStr p.specialty = lowerStr preferred) with
    | some p => some p
    | none => eligible.head?
  else
    eligible.head?

/-- Matching rule as the spec words it (section 4.4): filter by inclusive
eligibility range; map the setting to a preferred specialty by the fixed
lookup, case-insensitive on input; return the first eligible entry whose
specialty matches the preferred label case-insensitively, else the first
eligible entry, else none. -/
def matchRuleSpec (directory : List PhysicianInfo) (urgency_score : Int)
    (recommended_setting : String) : Option PhysicianInfo :=
  let eligible := eligibleEntries directory urgency_score
  match preferredSpecialtyMap (lowerStr recommended_setting) with
  | none => eligible.head?
  | some pref =>
    match eligible.find? (fun p => lowerStr p.specialty = lowerStr pref) with
    | some p => some p
    | none => eligible.head?

/- ---------------------------------------------------------------------
Provider directory loading (agents.py load physician directory, main.py
load physicians). The JSON file is modelled post-parse as a list of raw
records with possibly-missing fields.
--------------------------------------------------------------------- -/

/-- Raw provider record as parsed from JSON, before schema validation:
every field may be absent. -/
structure RawProviderEntry where
  id : Option String := none
  name : Option String := none
  specialty : Option String := none
  location : Option String := none
  urgency_min : Option Int := none
  urgency_max : Option Int := none
  contact_phone : Option String := none
  contact_email : Option String := none
deriving Repr, DecidableEq

/-- Pydantic construction PhysicianInfo of a raw entry: succeeds iff all
required fields are present. -/
def validateProviderEntry (e : RawProviderEntry) : Option PhysicianInfo :=
  match e.id, e.name, e.specialty, e.location, e.urgency_min, e.urgency_max with
  | some i, some n, some sp, some loc, some mn, some mx =>
      some { id := i, name := n, specialty := sp, location := loc,
             urgency_min := mn, urgency_max := mx,
             contact_phone := e.contact_phone, contact_email := e.contact_email }
  | _, _, _, _, _, _ => none

/-- Translation of agents.py load physician directory, applied to the
parsed record list: each record is validated in order and the first
invalid record aborts the load with a RuntimeError carrying the entry. -/
def loadPhysicianDirectoryFrom :
    List RawProviderEntry → Except String (List PhysicianInfo)
  | [] => Except.ok []
  | e :: rest =>
    match validateProviderEntry e with
    | none => Except.error "Invalid physician entry"
    | some p => (loadPhysicianDirectoryFrom rest).map (fun l => p :: l)

/-- Translation of main.py load physicians, applied to the parsed record
list: the raw records are returned as-is, with no per-record validation
and no failure path. -/
def loadPhysiciansFrom (entries : List RawProviderEntry) :
    Except String (List RawProviderEntry) :=
  Except.ok entries

/- ---------------------------------------------------------------------
The LangGraph workflow (agents.py): node functions with the engine result
passed explicitly, routing functions, and the compiled graph as a step
function over a stage tag plus the shared state.
--------------------------------------------------------------------- -/

/-- Stage tags of the workflow state machine; END of the compiled graph is
the terminal stage. -/
inductive Stage where
  | triage
  | clinical_guidance
  | referral_builder
  | terminal
deriving Repr, DecidableEq

/-- Position of a stage in the forward order of the workflow. -/
def Stage.idx : Stage → Nat
  | .triage => 0
  | .clinical_guidance => 1
  | .referral_builder => 2
  | .terminal => 3

/-- Merge step of the triage agent node (agents.py triage agent): the
structured engine result is written field by field into the shared state. -/
def triageAgentNode (state : TriageAgentState) (result : TriageAgentOutput) :
    TriageAgentState :=
  { state with
    symptoms := result.symptoms
    urgency_score := some result.urgency_score
    red_flags := result.red_flags
    medical_codes := some result.medical_codes
    handoff_ready := result.handoff_ready
    chief_complaint := some result.chief_complaint
    assessment := some result.assessment
    current_agent := some "triage" }

/-- Merge step of the clinical guidance agent node (agents.py clinical
guidance agent). -/
def clinicalGuidanceAgentNode (state : TriageAgentState)
    (result : ClinicalGuidanceOutput) : TriageAgentState :=
  { state with
    referral_required := result.referral_required
    recommended_setting := some result.recommended_setting.label
    guidance_summary := some result.guidance_summary
    next_steps := result.next_steps
    current_agent := some "clinical_guidance" }

/-- Merge step of the referral builder node (agents.py referral builder
agent): early return of the unchanged state when referral required is
falsy; otherwise the package is attached and a physician selected with
state.get defaults 0 and the empty string. -/
def referralBuilderAgentNode (directory : List PhysicianInfo)
    (state : TriageAgentState) (result : ReferralPackageOutput) :
    TriageAgentState :=
  if !state.referral_required then state
  else
    { state with
      referral_package := some result
      selected_physician :=
        selectPhysician directory (state.urgency_score.getD 0)
          (state.recommended_setting.getD "")
      current_agent := some "referral_builder" }

/-- Routing after the triage node (agents.py route after triage): proceed
to clinical guidance only when the merged handoff-ready flag is true
(state.get with default False); otherwise the graph edge goes to END. -/
def routeAfterTriage (state : TriageAgentState) : Stage :=
  if state.handoff_ready then Stage.clinical_guidance else Stage.terminal

/-- Routing after the guidance node (agents.py route after guidance): the
referral builder runs iff the merged referral-required flag is truthy. -/
def routeAfterGuidance (state : TriageAgentState) : Stage :=
  if state.referral_required then Stage.referral_builder else Stage.terminal

/-- Engine results for one pass over the graph: the structured outputs the
external reasoning engine would return at each node. -/
structure EngineResults where
  triage : TriageAgentOutput
  guidance : ClinicalGuidanceOutput
  referral : ReferralPackageOutput

/-- Workflow state: current graph position plus the shared agent state. -/
structure WorkflowState where
  stage : Stage
  data : TriageAgentState

/-- One step of the compiled graph from create triage graph: run the node
at the current stage on the given engine results and follow its
(conditional) outgoing edge. The terminal stage has no outgoing edge. -/
def graphStep (directory : List PhysicianInfo) (w : WorkflowState)
    (r : EngineResults) : WorkflowState :=
  match w.stage with
  | Stage.triage =>
    let d := triageAgentNode w.data r.triage
    { stage := routeAfterTriage d, data := d }
  | Stage.clinical_guidance =>
    let d := clinicalGuidanceAgentNode w.data r.guidance
    { stage := routeAfterGuidance d, data := d }
  | Stage.referral_builder =>
    { stage := Stage.terminal, data := referralBuilderAgentNode directory w.data r.referral }
  | Stage.terminal => w

/-- Entry point of the graph: the triage stage over the default state. -/
def initialWorkflowState : WorkflowState :=
  { stage := Stage.triage, data := {} }

/-- Iterated graph steps over a list of engine results. -/
def runGraph (directory : List PhysicianInfo) :
    WorkflowState → List EngineResults → WorkflowState
  | w, [] => w
  | w, r :: rs => runGraph directory (graphStep directory w r) rs

/-- Urgency invariant of the shared state: the stored urgency score is
unset or within the inclusive range 1 to 5. -/
def urgencyInv (d : TriageAgentState) : Prop :=
  ∀ u : Int, d.urgency_score = some u → 1 ≤ u ∧ u ≤ 5

/- ---------------------------------------------------------------------
Session store (session_store.py over models.py IntakeSessionState). Time
is an explicit integer in hours; the python dict is modelled as an
association list whose keys are unique in every store the python code can
build (dict semantics); lemmas that need uniqueness take it as a
hypothesis.
--------------------------------------------------------------------- -/

/-- Session status literal (models.py IntakeSessionState.status). -/
inductive SessionStatus where
  | active
  | completed
  | timeout
  | error
deriving Repr, DecidableEq

/-- In-memory state for an active intake session (models.py dataclass
IntakeSessionState); extracted symptoms kept as an opaque key-value list. -/
structure IntakeSessionState where
  session_id : String
  user_language : String
  start_time : Int
  transcript_chunks : List String := []
  final_transcript : String := ""
  extracted_symptoms : Option (List (String × String)) := none
  status : SessionStatus := SessionStatus.active
  error_message : Option String := none
deriving Repr, DecidableEq

/-- The in-memory session store: the sessions dict plus the TTL in hours. -/
structure SessionStore where
  sessions : List (String × IntakeSessionState)
  ttl : Int
deriving Repr, DecidableEq

/-- Lookup of the entry stored under a key (python dict indexing). -/
def lookupKey (id : String) :
    List (String × IntakeSessionState) → Option IntakeSessionState
  | [] => none
  | p :: rest => if p.1 = id then some p.2 else lookupKey id rest

/-- Removal of the entry stored under a key (python del on the dict). -/
def eraseKey (id : String) :
    List (String × IntakeSessionState) → List (String × IntakeSessionState)
  | [] => []
  | p :: rest => if p.1 = id then rest else p :: eraseKey id rest

/-- In-place update of the entry stored under a key (python mutation of
the stored session object). -/
def modifyKey (id : String) (f : IntakeSessionState → IntakeSessionState) :
    List (String × IntakeSessionState) → List (String × IntakeSessionState)
  | [] => []
  | p :: rest =>
    if p.1 = id then (p.1, f p.2) :: rest else p :: modifyKey id f rest

/-- Key list of a store contents list. -/
def keysOf (l : List (String × IntakeSessionState)) : List String :=
  l.map Prod.fst

/-- Expiry check (session_store.py is expired, underscore-prefixed):
true iff now minus the session start time exceeds the TTL. The check
reads start_time, the creation instant; the session record holds no
last-activity timestamp. -/
def isExpired (store : SessionStore) (now : Int) (s : IntakeSessionState) : Bool :=
  decide (now - s.start_time > store.ttl)

/-- Translation of session_store.py delete session: membership test on the
dict, removal, and the boolean result; the current time is not consulted. -/
def deleteSession (store : SessionStore) (id : String) : Bool × SessionStore :=
  if (lookupKey id store.sessions).isSome then
    (true, { store with sessions := eraseKey id store.sessions })
  else
    (false, store)

/-- Translation of session_store.py cleanup expired sessions: collect the
ids of expired entries, delete them, and return how many were removed
(with unique dict keys this is a filter on the expiry predicate). -/
def cleanupExpiredSessions (store : SessionStore) (now : Int) :
    Nat × SessionStore :=
  let expired := store.sessions.filter (fun p => isExpired store now p.2)
  (expired.length,
   { store with sessions := store.sessions.filter (fun p => !isExpired store now p.2) })

/-- Translation of session_store.py add transcript chunk: on a present id
the chunk is appended to that session transcript list and true returned;
on an absent id false is returned and nothing changes. -/
def addTranscriptChunk (store : SessionStore) (id : String) (chunk : String) :
    Bool × SessionStore :=
  match lookupKey id store.sessions with
  | none => (false, store)
  | some _ =>
    (true,
     { store with
       sessions := modifyKey id
         (fun s => { s with transcript_chunks := s.transcript_chunks ++ [chunk] })
         store.sessions })

/- ---------------------------------------------------------------------
Spec-modelled workflow orchestrator (spec section 4.3). The clarification
counter and the advance-eligibility rule live in frontend orchestration
code that is not under src (main.py states the frontend manages all state
and orchestration); they are modelled here from the words of the spec.
--------------------------------------------------------------------- -/

/-- Modelled from the spec: the per-session orchestrator state the
clarification-loop policy reads and writes (stage tag, clarification
attempt counter, handoff-ready flag, pending clarifying question, merged
triage fields). The orchestrator implementation is missing from src. -/
structure OrchState where
  stage : Stage := Stage.triage
  clarification_attempts : Nat := 0
  handoff_ready : Bool := false
  clarifying_question : Option String := none
  urgency_score : Option Int := none
  red_flags : List String := []
deriving Repr, DecidableEq

/-- Modelled from the spec: the triage-stage result fields the
clarification-loop policy inspects. -/
structure OrchTriageResult where
  handoff_ready : Bool
  clarifying_question : Option String
  urgency_score : Int
  red_flags : List String
deriving Repr, DecidableEq

/-- Modelled from the spec: one orchestrator evaluation of a triage-stage
result (spec section 4.3, transition out of triage). If the stage signals
handoff not ready and supplies a clarifying question: at an attempt
counter already at least 2, force handoff-ready true, clear the question,
reset the counter to 0 and advance; below the cap, increment the counter
and stay in triage surfacing the question. Otherwise merge the result,
reset the counter to 0 and advance to clinical guidance iff handoff-ready
is true or any red flag is present or the urgency score is at least 4,
else transition to terminal. -/
def orchTriageStep (s : OrchState) (r : OrchTriageResult) : OrchState :=
  if !r.handoff_ready && r.clarifying_question.isSome then
    if 2 ≤ s.clarification_attempts then
      { s with
        stage := Stage.clinical_guidance
        clarification_attempts := 0
        handoff_ready := true
        clarifying_question := none
        urgency_score := some r.urgency_score
        red_flags := r.red_flags }
    else
      { s with
        clarification_attempts := s.clarification_attempts + 1
        handoff_ready := false
        clarifying_question := r.clarifying_question
        urgency_score := some r.urgency_score
        red_flags := r.red_flags }
  else
    let advance : Bool :=
      r.handoff_ready || !r.red_flags.isEmpty || decide (4 ≤ r.urgency_score)
    { s with
      stage := if advance then Stage.clinical_guidance else Stage.terminal
      clarification_attempts := 0
      handoff_ready := r.handoff_ready
      clarifying_question := r.clarifying_question
      urgency_score := some r.urgency_score
      red_flags := r.red_flags }

/-- Modelled from the spec: a fresh session starts in triage with the
counter at zero and every field at its empty default. -/
def orchInitState : OrchState := {}

/-- Modelled from the spec: iterated orchestrator triage evaluations. -/
def orchRun : OrchState → List OrchTriageResult → OrchState
  | s, [] => s
  | s, r :: rs => orchRun (orchTriageStep s r) rs

/-- Counter invariant of an orchestrator state: the clarification-attempt
counter is at most 2 and is 0 whenever handoff-ready is true. -/
def orchInv (s : OrchState) : Prop :=
  s.clarification_attempts ≤ 2 ∧ (s.handoff_ready = true → s.clarification_attempts = 0)

/- ---------------------------------------------------------------------
Concrete inputs used by counterexamples and witnesses. Each claim keeps
its own inputs.
--------------------------------------------------------------------- -/

/-- Triage engine result with handoff not ready yet a red flag present and
urgency 5 (C1 inputs). -/
def triageResC1 : TriageAgentOutput :=
  { symptoms := ["chest pain"]
    chief_complaint := "chest pain"
    urgency_score := 5
    urgency_score_ge := by decide
    urgency_score_le := by decide
    red_flags := ["chest pain"]
    assessment := "possible acute coronary syndrome"
    medical_codes := {}
    handoff_ready := false }

/-- Guidance engine result (C1 inputs; unreachable on this pass). -/
def guidanceResC1 : ClinicalGuidanceOutput :=
  { referral_required := true
    recommended_setting := CareSetting.emergencyDepartment
    guidance_summary := "immediate emergency evaluation" }

/-- Referral engine result (C1 inputs; unreachable on this pass). -/
def referralResC1 : ReferralPackageOutput :=
  { demographics := {}
    chief_complaint := "chest pain"
    history_present_illness := "sudden onset chest pain"
    symptoms := ["chest pain"]
    assessment := "possible acute coronary syndrome"
    urgency_score := 5
    urgency_score_ge := by decide
    urgency_score_le := by decide
    red_flags := ["chest pain"]
    medical_codes := {}
    disposition := "Emergency Department"
    referral_notes := "urgent work-up" }

/-- Engine results bundle for the C1 pass. -/
def resultsC1 : EngineResults :=
  { triage := triageResC1, guidance := guidanceResC1, referral := referralResC1 }

/-- Triage engine result (C5 inputs). -/
def triageResC5 : TriageAgentOutput :=
  { symptoms := ["mild rash"]
    chief_complaint := "rash"
    urgency_score := 1
    urgency_score_ge := by decide
    urgency_score_le := by decide
    red_flags := []
    assessment := "benign contact dermatitis"
    medical_codes := {}
    handoff_ready := true }

/-- Guidance engine result declining a referral (C5 inputs). -/
def guidanceResC5 : ClinicalGuidanceOutput :=
  { referral_required := false
    recommended_setting := CareSetting.selfCare
    guidance_summary := "self-care is sufficient" }

/-- Referral engine result (C5 inputs; must never be consumed). -/
def referralResC5 : ReferralPackageOutput :=
  { demographics := {}
    chief_complaint := "rash"
    history_present_illness := "two days of rash"
    symptoms := ["mild rash"]
    assessment := "benign contact dermatitis"
    urgency_score := 1
    urgency_score_ge := by decide
    urgency_score_le := by decide
    red_flags := []
    medical_codes := {}
    disposition := "Self-care"
    referral_notes := "none" }

/-- Engine results bundle for the C5 pass. -/
def resultsC5 : EngineResults :=
  { triage := triageResC5, guidance := guidanceResC5, referral := referralResC5 }

/-- Workflow state sitting at the clinical guidance stage (C5 inputs). -/
def wsGuidanceC5 : WorkflowState :=
  { stage := Stage.clinical_guidance, data := {} }

/-- Raw triage engine response with an out-of-range urgency (C8 inputs). -/
def rawBadC8 : RawTriageOutput :=
  { symptoms := ["headache"]
    chief_complaint := "headache"
    urgency_score := 7
    red_flags := []
    assessment := "overscored"
    medical_codes := {}
    handoff_ready := true }

/-- Physician eligible only for urgency 1 to 2 (C4 inputs). -/
def physC4 : PhysicianInfo :=
  { id := "d1", name := "Dr Adams", specialty := "Primary Care",
    location := "Clinic A", urgency_min := 1, urgency_max := 2 }

/-- One-entry directory in which urgency 5 leaves no eligible entry (C4
inputs). -/
def dirC4 : List PhysicianInfo := [physC4]

/-- Raw provider record missing every required field but the id (C7
inputs). -/
def badEntryC7 : RawProviderEntry := { id := some "p9" }

/-- Orchestrator state at the clarification cap (C3 inputs). -/
def orchStateC3 : OrchState :=
  { stage := Stage.triage, clarification_attempts := 2 }

/-- Triage result still not ready, with another clarifying question (C3
inputs). -/
def orchResC3 : OrchTriageResult :=
  { handoff_ready := false, clarifying_question := some "when did it start",
    urgency_score := 2, red_flags := [] }

/-- Session created at hour 0 (C2 inputs). -/
def sessC2 : IntakeSessionState :=
  { session_id := "s1", user_language := "en", start_time := 0 }

/-- Store holding sessC2 with a TTL of 24 hours (C2 inputs). -/
def storeC2 : SessionStore := { sessions := [("s1", sessC2)], ttl := 24 }

/-- Session created at hour 0 (C6 inputs). -/
def sessC6 : IntakeSessionState :=
  { session_id := "a", user_language := "en", start_time := 0 }

/-- Second session, created at hour 90 (C6 inputs). -/
def sessC6b : IntakeSessionState :=
  { session_id := "b", user_language := "fr", start_time := 90 }

/-- Store holding sessC6 and sessC6b with a TTL of 24 hours (C6 inputs). -/
def storeC6 : SessionStore :=
  { sessions := [("a", sessC6), ("b", sessC6b)], ttl := 24 }

/-- Session used by the C10 witness. -/
def sessC10 : IntakeSessionState :=
  { session_id := "x", user_language := "en", start_time := 3,
    transcript_chunks := ["hello"] }

/-- Store used by the C10 witness. -/
def storeC10 : SessionStore := { sessions := [("x", sessC10)], ttl := 24 }

/- ---------------------------------------------------------------------
Shared lemmas about the association-list primitives.
--------------------------------------------------------------------- -/

theorem lookupKey_eq_none_of_not_mem {id : String}
    {l : List (String × IntakeSessionState)} (h : id ∉ keysOf l) :
    lookupKey id l = none := by
  induction l with
  | nil => rfl
  | cons p rest ih =>
    simp only [keysOf, List.map_cons, List.mem_cons] at h
    push_neg at h
    simp only [lookupKey]
    rw [if_neg (fun hpe => h.1 hpe.symm)]
    exact ih h.2

theorem mem_keysOf_filter {id : String} {p : String × IntakeSessionState → Bool}
    {l : List (String × IntakeSessionState)} (h : id ∈ keysOf (l.filter p)) :
    id ∈ keysOf l := by
  simp only [keysOf, List.mem_map] at h ⊢
  obtain ⟨e, he, hid⟩ := h
  exact ⟨e, (List.mem_filter.mp he).1, hid⟩

theorem lookupKey_modifyKey_self (id : String)
    (f : IntakeSessionState → IntakeSessionState)
    (l : List (String × IntakeSessionState)) :
    lookupKey id (modifyKey id f l) = (lookupKey id l).map f := by
  induction l with
  | nil => rfl
  | cons p rest ih =>
    by_cases hp : p.1 = id
    · simp [modifyKey, lookupKey, hp]
    · simp [modifyKey, lookupKey, hp, ih]

theorem lookupKey_modifyKey_ne {id id2 : String}
    (f : IntakeSessionState → IntakeSessionState)
    (l : List (String × IntakeSessionState)) (h : id2 ≠ id) :
    lookupKey id2 (modifyKey id f l) = lookupKey id2 l := by
  induction l with
  | nil => rfl
  | cons p rest ih =>
    by_cases hp : p.1 = id
    · have hne : ¬ p.1 = id2 := fun he => h (he ▸ hp)
      show lookupKey id2 (if p.1 = id then (p.1, f p.2) :: rest else p :: modifyKey id f rest)
           = lookupKey id2 (p :: rest)
      rw [if_pos hp]
      show (if p.1 = id2 then some (f p.2) else lookupKey id2 rest)
           = (if p.1 = id2 then some p.2 else lookupKey id2 rest)
      rw [if_neg hne, if_neg hne]
    · by_cases hp2 : p.1 = id2
      · simp [modifyKey, lookupKey, hp, hp2, h]
      · simp [modifyKey, lookupKey, hp, hp2, ih]

theorem lookupKey_eraseKey_ne {id id2 : String}
    (l : List (String × IntakeSessionState)) (h : id2 ≠ id) :
    lookupKey id2 (eraseKey id l) = lookupKey id2 l := by
  induction l with
  | nil => rfl
  | cons p rest ih =>
    by_cases hp : p.1 = id
    · have hne : ¬ p.1 = id2 := fun he => h (he ▸ hp)
      show lookupKey id2 (if p.1 = id then rest else p :: eraseKey id rest)
           = lookupKey id2 (p :: rest)
      rw [if_pos hp]
      show lookupKey id2 rest = (if p.1 = id2 then some p.2 else lookupKey id2 rest)
      rw [if_neg hne]
    · by_cases hp2 : p.1 = id2
      · simp [eraseKey, lookupKey, hp, hp2, h]
      · simp [eraseKey, lookupKey, hp, hp2, ih]

theorem lookupKey_eraseKey_self {id : String}
    {l : List (String × IntakeSessionState)} (hnd : (keysOf l).Nodup) :
    lookupKey id (eraseKey id l) = none := by
  induction l with
  | nil => rfl
  | cons p rest ih =>
    simp only [keysOf, List.map_cons, List.nodup_cons] at hnd
    by_cases hp : p.1 = id
    · simp only [eraseKey, if_pos hp]
      exact lookupKey_eq_none_of_not_mem (hp ▸ hnd.1)
    · simp only [eraseKey, if_neg hp, lookupKey, if_neg hp]
      exact ih hnd.2

theorem length_filter_add_length_filter_not
    (p : String × IntakeSessionState → Bool)
    (l : List (String × IntakeSessionState)) :
    (l.filter p).length + (l.filter (fun a => !p a)).length = l.length := by
  induction l with
  | nil => rfl
  | cons a rest ih =>
    cases ha : p a <;> simp [List.filter_cons, ha] <;> omega

/- ---------------------------------------------------------------------
Claim theorems.
--------------------------------------------------------------------- -/

/-- Claim C2, counterexample: the expiry sweep does not key on activity.
A session created at hour 0 in a store with a 24-hour TTL receives a
transcript chunk (activity), yet the sweep at hour 25 still removes it:
the removal decision reads only start_time, the creation instant, so a
session with recent activity is removed once its age exceeds the TTL,
contradicting the claim that such a session is never removed. -/
theorem c2_sweep_ignores_activity_counterexample :
    (addTranscriptChunk storeC2 "s1" "still here").1 = true ∧
    (cleanupExpiredSessions (addTranscriptChunk storeC2 "s1" "still here").2 25).1 = 1 ∧
    lookupKey "s1"
      (cleanupExpiredSessions (addTranscriptChunk storeC2 "s1" "still here").2 25).2.sessions
      = none := by
  refine ⟨rfl, rfl, rfl⟩

/-- Claim C2, amended: the expiry sweep removes a session if and only if
the time elapsed since the session was created (its start_time) exceeds
the TTL; the session record holds no last-activity timestamp and activity
does not extend its lifetime. The sweep returns the number removed, so
the count removed plus the count remaining is the original count. -/
theorem c2_sweep_removes_iff_age_exceeds_ttl
    (store : SessionStore) (now : Int) (id : String) (s : IntakeSessionState) :
    ((id, s) ∈ (cleanupExpiredSessions store now).2.sessions ↔
      (id, s) ∈ store.sessions ∧ ¬(now - s.start_time > store.ttl)) ∧
    (cleanupExpiredSessions store now).1 +
      (cleanupExpiredSessions store now).2.sessions.length = store.sessions.length := by
  constructor
  · simp [cleanupExpiredSessions, List.mem_filter, isExpired]
  · exact length_filter_add_length_filter_not _ store.sessions

/-- Claim C6, counterexample: delete on an expired but still-present id.
With a TTL of 24 hours, the session created at hour 0 is expired at hour
100, yet delete returns true and removes it; the claim says delete on an
expired id reports not-found. The python delete never consults the clock,
which is why the deleteSession translation takes no time argument at
all. -/
theorem c6_delete_expired_counterexample :
    isExpired storeC6 100 sessC6 = true ∧
    (deleteSession storeC6 "a").1 = true := by
  refine ⟨rfl, rfl⟩

/-- Claim C6, amended: delete returns true if and only if a session with
that id is present in the store, expired or not, and removes it; on an
absent id it returns false and leaves the store entirely unchanged; every
other stored session is left unchanged in either case. -/
theorem c6_delete_present_iff
    (store : SessionStore) (id : String)
    (hnd : (keysOf store.sessions).Nodup) :
    ((deleteSession store id).1 = true ↔ (lookupKey id store.sessions).isSome) ∧
    (lookupKey id store.sessions = none → deleteSession store id = (false, store)) ∧
    lookupKey id (deleteSession store id).2.sessions = none ∧
    (∀ id2, id2 ≠ id →
      lookupKey id2 (deleteSession store id).2.sessions = lookupKey id2 store.sessions) ∧
    (deleteSession store id).2.ttl = store.ttl := by
  refine ⟨?_, ?_, ?_, ?_, ?_⟩
  · unfold deleteSession
    by_cases hmem : (lookupKey id store.sessions).isSome <;> simp [hmem]
  · intro habs
    unfold deleteSession
    simp [habs]
  · unfold deleteSession
    by_cases hmem : (lookupKey id store.sessions).isSome
    · simp only [if_pos hmem]
      exact lookupKey_eraseKey_self hnd
    · simp only [if_neg hmem]
      exact Option.not_isSome_iff_eq_none.mp hmem
  · intro id2 hne
    unfold deleteSession
    by_cases hmem : (lookupKey id store.sessions).isSome
    · simp only [if_pos hmem]
      exact lookupKey_eraseKey_ne store.sessions hne
    · simp [if_neg hmem]
  · unfold deleteSession
    by_cases hmem : (lookupKey id store.sessions).isSome <;> simp [hmem]

/-- Claim C6, witness: the amended theorem applied to the concrete
two-session store, deleting the first session. -/
theorem c6_delete_present_iff_witness :
    ((deleteSession storeC6 "a").1 = true ↔ (lookupKey "a" storeC6.sessions).isSome) ∧
    (lookupKey "a" storeC6.sessions = none → deleteSession storeC6 "a" = (false, storeC6)) ∧
    lookupKey "a" (deleteSession storeC6 "a").2.sessions = none ∧
    (∀ id2, id2 ≠ "a" →
      lookupKey id2 (deleteSession storeC6 "a").2.sessions = lookupKey id2 storeC6.sessions) ∧
    (deleteSession storeC6 "a").2.ttl = storeC6.ttl :=
  c6_delete_present_iff storeC6 "a" (by decide)

/-- Claim C10: add_transcript_chunk on a present id appends the chunk at
the end of that session transcript list, leaves every other field of that
session, every other stored session and the TTL unchanged and returns
true; on an absent id it returns false and the store is unchanged. -/
theorem c10_add_transcript_chunk_spec
    (store : SessionStore) (id : String) (chunk : String) :
    (∀ s, lookupKey id store.sessions = some s →
      (addTranscriptChunk store id chunk).1 = true ∧
      lookupKey id (addTranscriptChunk store id chunk).2.sessions =
        some { s with transcript_chunks := s.transcript_chunks ++ [chunk] } ∧
      (∀ id2, id2 ≠ id →
        lookupKey id2 (addTranscriptChunk store id chunk).2.sessions =
          lookupKey id2 store.sessions) ∧
      (addTranscriptChunk store id chunk).2.ttl = store.ttl) ∧
    (lookupKey id store.sessions = none →
      addTranscriptChunk store id chunk = (false, store)) := by
  constructor
  · intro s hs
    refine ⟨?_, ?_, ?_, ?_⟩
    · unfold addTranscriptChunk
      simp [hs]
    · unfold addTranscriptChunk
      simp only [hs]
      rw [lookupKey_modifyKey_self, hs]
      rfl
    · intro id2 hne
      unfold addTranscriptChunk
      simp only [hs]
      exact lookupKey_modifyKey_ne _ store.sessions hne
    · unfold addTranscriptChunk
      simp [hs]
  · intro habs
    unfold addTranscriptChunk
    simp [habs]

/-- Claim C10, witness: the theorem applied to the concrete one-session
store, appending a second chunk to the session stored under x. -/
theorem c10_add_transcript_chunk_witness :
    (addTranscriptChunk storeC10 "x" "again").1 = true ∧
    lookupKey "x" (addTranscriptChunk storeC10 "x" "again").2.sessions =
      some { sessC10 with transcript_chunks := sessC10.transcript_chunks ++ ["again"] } ∧
    (∀ id2, id2 ≠ "x" →
      lookupKey id2 (addTranscriptChunk storeC10 "x" "again").2.sessions =
        lookupKey id2 storeC10.sessions) ∧
    (addTranscriptChunk storeC10 "x" "again").2.ttl = storeC10.ttl :=
  (c10_add_transcript_chunk_spec storeC10 "x" "again").1 sessC10 rfl

/-- Claim C1, counterexample: a triage result with handoff_ready false, a
non-empty red-flag list and urgency 5 routes the workflow to terminal,
not to clinical guidance: the routing function reads only the merged
handoff-ready flag, so neither a red flag nor a high urgency score
triggers the advance that the claim asserts. -/
theorem c1_route_after_triage_counterexample :
    triageResC1.handoff_ready = false ∧
    triageResC1.red_flags ≠ [] ∧
    4 ≤ triageResC1.urgency_score ∧
    (graphStep [] initialWorkflowState resultsC1).stage = Stage.terminal ∧
    (graphStep [] initialWorkflowState resultsC1).stage ≠ Stage.clinical_guidance := by
  refine ⟨rfl, by decide, by decide, rfl, by decide⟩

/-- Claim C1, amended: after the triage stage runs on a session in state
triage, the workflow advances to clinical guidance if and only if the
triage result carries handoff_ready true; with handoff_ready false it
transitions to terminal regardless of red flags or urgency score (the
red-flag and urgency overrides exist only as prompt instructions to the
engine, not in the routing code). -/
theorem c1_route_after_triage_amended
    (directory : List PhysicianInfo) (w : WorkflowState) (r : EngineResults)
    (h : w.stage = Stage.triage) :
    ((graphStep directory w r).stage = Stage.clinical_guidance ↔
      r.triage.handoff_ready = true) ∧
    (r.triage.handoff_ready = false →
      (graphStep directory w r).stage = Stage.terminal) := by
  cases hready : r.triage.handoff_ready <;>
    simp [graphStep, h, triageAgentNode, routeAfterTriage, hready]

/-- Claim C1, witness: the amended theorem applied at the graph entry
state and the concrete not-ready red-flag result. -/
theorem c1_route_after_triage_amended_witness :
    ((graphStep [] initialWorkflowState resultsC1).stage = Stage.clinical_guidance ↔
      resultsC1.triage.handoff_ready = true) ∧
    (resultsC1.triage.handoff_ready = false →
      (graphStep [] initialWorkflowState resultsC1).stage = Stage.terminal) :=
  c1_route_after_triage_amended [] initialWorkflowState resultsC1 rfl

/-- Claim C5: after the clinical guidance stage runs, the workflow
advances to referral builder if and only if the returned
referral-required flag is true; when it is false the session becomes
terminal, the referral-builder node is not the one that ran (the current
agent field stays clinical_guidance), the matched provider and the
referral package are left exactly as they were (in particular a provider
that was none remains none), and the terminal state absorbs every further
step, so the referral builder can never run later in the pass. -/
theorem c5_route_after_guidance_spec
    (directory : List PhysicianInfo) (w : WorkflowState) (r : EngineResults)
    (h : w.stage = Stage.clinical_guidance) :
    ((graphStep directory w r).stage = Stage.referral_builder ↔
      r.guidance.referral_required = true) ∧
    (r.guidance.referral_required = false →
      (graphStep directory w r).stage = Stage.terminal ∧
      (graphStep directory w r).data.current_agent = some "clinical_guidance" ∧
      (graphStep directory w r).data.selected_physician = w.data.selected_physician ∧
      (graphStep directory w r).data.referral_package = w.data.referral_package ∧
      (∀ r2, graphStep directory (graphStep directory w r) r2 = graphStep directory w r)) := by
  cases hreq : r.guidance.referral_required <;>
    simp [graphStep, h, clinicalGuidanceAgentNode, routeAfterGuidance, hreq]

/-- Claim C5, witness: the theorem applied at a concrete guidance-stage
state with a result declining the referral; the provider stays none. -/
theorem c5_route_after_guidance_witness :
    ((graphStep [] wsGuidanceC5 resultsC5).stage = Stage.referral_builder ↔
      resultsC5.guidance.referral_required = true) ∧
    ((graphStep [] wsGuidanceC5 resultsC5).stage = Stage.terminal ∧
      (graphStep [] wsGuidanceC5 resultsC5).data.current_agent = some "clinical_guidance" ∧
      (graphStep [] wsGuidanceC5 resultsC5).data.selected_physician =
        wsGuidanceC5.data.selected_physician ∧
      (graphStep [] wsGuidanceC5 resultsC5).data.referral_package =
        wsGuidanceC5.data.referral_package ∧
      (∀ r2, graphStep [] (graphStep [] wsGuidanceC5 resultsC5) r2 =
        graphStep [] wsGuidanceC5 resultsC5)) :=
  ⟨(c5_route_after_guidance_spec [] wsGuidanceC5 resultsC5 rfl).1,
   (c5_route_after_guidance_spec [] wsGuidanceC5 resultsC5 rfl).2 rfl⟩

/-- Claim C9: every step of the compiled workflow graph moves the stage
tag forward or keeps it equal in the order triage, clinical guidance,
referral builder, terminal; no transition regresses, whatever engine
results arrive. -/
theorem c9_stage_monotone
    (directory : List PhysicianInfo) (w : WorkflowState) (r : EngineResults) :
    w.stage.idx ≤ (graphStep directory w r).stage.idx := by
  obtain ⟨st, d⟩ := w
  cases st
  · by_cases hb : (triageAgentNode d r.triage).handoff_ready <;>
      simp [graphStep, routeAfterTriage, hb, Stage.idx]
  · by_cases hb : (clinicalGuidanceAgentNode d r.guidance).referral_required <;>
      simp [graphStep, routeAfterGuidance, hb, Stage.idx]
  · simp [graphStep, Stage.idx]
  · simp [graphStep, Stage.idx]

/-- Claim C8: an engine triage response whose urgency score lies outside
the inclusive range 1 to 5 is rejected by schema validation as an error;
validation never coerces the score (an accepted output carries exactly
the raw score, which is then within range); and every state the workflow
graph reaches from the entry state stores an urgency score that is unset
or within 1 to 5, since only validated outputs are ever merged. -/
theorem c8_urgency_validation_spec
    (raw : RawTriageOutput)
    (hout : raw.urgency_score < 1 ∨ 5 < raw.urgency_score) :
    validateTriageOutput raw = Except.error "urgency_score out of range 1..5" ∧
    (∀ (raw2 : RawTriageOutput) (o : TriageAgentOutput),
      validateTriageOutput raw2 = Except.ok o →
      o.urgency_score = raw2.urgency_score ∧ 1 ≤ o.urgency_score ∧ o.urgency_score ≤ 5) ∧
    (∀ (directory : List PhysicianInfo) (rs : List EngineResults),
      urgencyInv (runGraph directory initialWorkflowState rs).data) := by
  have hstep : ∀ (directory : List PhysicianInfo) (w : WorkflowState) (r : EngineResults),
      urgencyInv w.data → urgencyInv (graphStep directory w r).data := by
    intro directory w r hw
    obtain ⟨st, d⟩ := w
    cases st
    · intro u hu
      simp [graphStep, triageAgentNode] at hu
      exact hu ▸ ⟨r.triage.urgency_score_ge, r.triage.urgency_score_le⟩
    · intro u hu
      simp [graphStep, clinicalGuidanceAgentNode] at hu
      exact hw u hu
    · intro u hu
      simp only [graphStep, referralBuilderAgentNode] at hu
      by_cases hreq : d.referral_required <;> simp [hreq] at hu <;> exact hw u hu
    · exact hw
  refine ⟨?_, ?_, ?_⟩
  · unfold validateTriageOutput
    rw [dif_neg (by omega)]
  · intro raw2 o ho
    unfold validateTriageOutput at ho
    by_cases hin : 1 ≤ raw2.urgency_score ∧ raw2.urgency_score ≤ 5
    · rw [dif_pos hin] at ho
      cases ho
      exact ⟨rfl, hin.1, hin.2⟩
    · rw [dif_neg hin] at ho
      cases ho
  · intro directory rs
    have hrun : ∀ (w : WorkflowState) (l : List EngineResults), urgencyInv w.data →
        urgencyInv (runGraph directory w l).data := by
      intro w l
      induction l generalizing w with
      | nil => exact fun hw => hw
      | cons r rs2 ih => exact fun hw => ih _ (hstep directory w r hw)
    refine hrun initialWorkflowState rs ?_
    intro u hu
    simp [initialWorkflowState] at hu

/-- Claim C8, witness: the theorem applied to the concrete raw response
scored 7, discharging the out-of-range hypothesis. -/
theorem c8_urgency_validation_witness :
    validateTriageOutput rawBadC8 = Except.error "urgency_score out of range 1..5" ∧
    (∀ (raw2 : RawTriageOutput) (o : TriageAgentOutput),
      validateTriageOutput raw2 = Except.ok o →
      o.urgency_score = raw2.urgency_score ∧ 1 ≤ o.urgency_score ∧ o.urgency_score ≤ 5) ∧
    (∀ (directory : List PhysicianInfo) (rs : List EngineResults),
      urgencyInv (runGraph directory initialWorkflowState rs).data) :=
  c8_urgency_validation_spec rawBadC8 (Or.inr (by decide))

/-- A value produced by the preferred-specialty lookup is never the empty
string, the sentinel that the python dict get default uses for absence. -/
theorem preferredSpecialtyMap_ne_empty {s v : String}
    (h : preferredSpecialtyMap s = some v) : v ≠ "" := by
  unfold preferredSpecialtyMap at h
  split_ifs at h
  all_goals first
    | exact Option.noConfusion h
    | (injection h with h2; subst h2; decide)

/-- Claim C4: both implementations of the matching rule, the agents
module function and the main module endpoint, coincide with the rule as
the spec words it: first eligible entry whose specialty matches the
preferred label case-insensitively, else the first eligible entry by
stored order, else none; and with no eligible entry the result is none
rather than a failure. -/
theorem c4_matching_rule
    (directory : List PhysicianInfo) (urgency : Int) (setting : String) :
    selectPhysician directory urgency setting = matchRuleSpec directory urgency setting ∧
    matchPhysician directory urgency setting = matchRuleSpec directory urgency setting ∧
    (eligibleEntries directory urgency = [] →
      selectPhysician directory urgency setting = none) := by
  have hmain : matchPhysician directory urgency setting
      = matchRuleSpec directory urgency setting := by
    cases hpm : preferredSpecialtyMap (lowerStr setting) with
    | none => simp [matchPhysician, matchRuleSpec, hpm]
    | some v => simp [matchPhysician, matchRuleSpec, hpm, preferredSpecialtyMap_ne_empty hpm]
  have hsel : selectPhysician directory urgency setting
      = matchRuleSpec directory urgency setting := by
    by_cases hdir : directory = []
    · subst hdir
      cases hpm : preferredSpecialtyMap (lowerStr setting) <;>
        simp [selectPhysician, matchRuleSpec, eligibleEntries, hpm]
    · by_cases hset : setting = ""
      · subst hset
        have hpm : preferredSpecialtyMap (lowerStr "") = none := by decide
        simp [selectPhysician, matchRuleSpec, hdir, hpm]
      · cases hpm : preferredSpecialtyMap (lowerStr setting) with
        | none => simp [selectPhysician, matchRuleSpec, hdir, hset, hpm]
        | some v =>
          simp [selectPhysician, matchRuleSpec, hdir, hset, hpm,
            preferredSpecialtyMap_ne_empty hpm]
  refine ⟨hsel, hmain, fun hE => ?_⟩
  rw [hsel]
  cases hpm : preferredSpecialtyMap (lowerStr setting) <;>
    simp [matchRuleSpec, hE, hpm]

/-- Claim C4, witness: the theorem applied to the one-entry directory at
urgency 5, where no entry is eligible, discharging the emptiness
hypothesis of the third conjunct. -/
theorem c4_matching_rule_witness :
    selectPhysician dirC4 5 "Urgent Care" = matchRuleSpec dirC4 5 "Urgent Care" ∧
    matchPhysician dirC4 5 "Urgent Care" = matchRuleSpec dirC4 5 "Urgent Care" ∧
    selectPhysician dirC4 5 "Urgent Care" = none :=
  ⟨(c4_matching_rule dirC4 5 "Urgent Care").1,
   (c4_matching_rule dirC4 5 "Urgent Care").2.1,
   (c4_matching_rule dirC4 5 "Urgent Care").2.2 (by decide)⟩

/-- Claim C7, counterexample: a record missing every required field but
the id fails provider-entry validation, yet the main module startup
loader returns it without any error: that loader performs no per-record
validation, so a malformed record does not make the load fail, contrary
to the claim that startup fails whenever any record is malformed. -/
theorem c7_loader_counterexample :
    validateProviderEntry badEntryC7 = none ∧
    loadPhysiciansFrom [badEntryC7] = Except.ok [badEntryC7] :=
  ⟨rfl, rfl⟩

/-- Claim C7, amended: the agents module directory loader fails with a
descriptive error precisely when some record in the parsed source fails
provider-entry validation, never skipping an entry; the main module
loader, by contrast, returns the parsed records with no validation and
never fails on a malformed record. -/
theorem c7_directory_load_amended (entries : List RawProviderEntry) :
    ((∃ msg, loadPhysicianDirectoryFrom entries = Except.error msg) ↔
      ∃ e ∈ entries, validateProviderEntry e = none) ∧
    loadPhysiciansFrom entries = Except.ok entries := by
  refine ⟨?_, rfl⟩
  induction entries with
  | nil => simp [loadPhysicianDirectoryFrom]
  | cons e rest ih =>
    have hmap : ∀ (p : PhysicianInfo) (msg : String),
        Except.map (fun l => p :: l) (loadPhysicianDirectoryFrom rest)
          = Except.error msg ↔
        loadPhysicianDirectoryFrom rest = Except.error msg := by
      intro p msg
      cases hrest : loadPhysicianDirectoryFrom rest <;> simp [Except.map]
    cases hv : validateProviderEntry e with
    | none =>
      constructor
      · intro _
        exact ⟨e, List.mem_cons_self e rest, hv⟩
      · intro _
        exact ⟨"Invalid physician entry", by simp [loadPhysicianDirectoryFrom, hv]⟩
    | some p =>
      constructor
      · rintro ⟨msg, hmsg⟩
        simp only [loadPhysicianDirectoryFrom, hv] at hmsg
        obtain ⟨e2, he2, hve2⟩ := ih.mp ⟨msg, (hmap p msg).mp hmsg⟩
        exact ⟨e2, List.mem_cons_of_mem e he2, hve2⟩
      · rintro ⟨e2, he2, hve2⟩
        rcases List.mem_cons.mp he2 with rfl | hmem
        · rw [hve2] at hv
          exact Option.noConfusion hv
        · obtain ⟨msg, hmsg⟩ := ih.mpr ⟨e2, hmem, hve2⟩
          refine ⟨msg, ?_⟩
          simp only [loadPhysicianDirectoryFrom, hv]
          exact (hmap p msg).mpr hmsg

/-- Claim C3, spec-modelled: for the orchestrator described by the spec,
the clarification-attempt counter is at most 2 in the initial state and
after every triage evaluation from a state where it was, it is 0 whenever
handoff-ready is true, at a counter already at least 2 a not-ready result
with a clarifying question is overridden to handoff-ready true with the
question cleared and the counter reset to 0, and the invariant holds
along every run from a fresh session. -/
theorem c3_clarification_counter_spec :
    orchInv orchInitState ∧
    (∀ (s : OrchState) (r : OrchTriageResult), orchInv s → orchInv (orchTriageStep s r)) ∧
    (∀ (s : OrchState) (r : OrchTriageResult),
      2 ≤ s.clarification_attempts → r.handoff_ready = false →
      r.clarifying_question.isSome = true →
      (orchTriageStep s r).handoff_ready = true ∧
      (orchTriageStep s r).clarifying_question = none ∧
      (orchTriageStep s r).clarification_attempts = 0) ∧
    (∀ rs, orchInv (orchRun orchInitState rs)) := by
  have hstep : ∀ (s : OrchState) (r : OrchTriageResult),
      orchInv s → orchInv (orchTriageStep s r) := by
    intro s r hs
    unfold orchTriageStep
    by_cases hc : (!r.handoff_ready && r.clarifying_question.isSome) = true
    · rw [if_pos hc]
      by_cases hcap : 2 ≤ s.clarification_attempts
      · rw [if_pos hcap]
        exact ⟨Nat.zero_le _, fun _ => rfl⟩
      · rw [if_neg hcap]
        refine ⟨?_, fun hh => ?_⟩
        · show s.clarification_attempts + 1 ≤ 2
          omega
        · simp only [Bool.and_eq_true, Bool.not_eq_true'] at hc
          exact absurd hh (by simp [hc.1])
    · rw [if_neg hc]
      exact ⟨Nat.zero_le _, fun _ => rfl⟩
  refine ⟨⟨Nat.zero_le _, fun _ => rfl⟩, hstep, ?_, ?_⟩
  · intro s r hcap hr hq
    have hc : (!r.handoff_ready && r.clarifying_question.isSome) = true := by
      simp [hr, hq]
    unfold orchTriageStep
    rw [if_pos hc, if_pos hcap]
    exact ⟨rfl, rfl, rfl⟩
  · intro rs
    have hrun : ∀ (l : List OrchTriageResult) (s : OrchState),
        orchInv s → orchInv (orchRun s l) := by
      intro l
      induction l with
      | nil => exact fun s hs => hs
      | cons r rs2 ih => exact fun s hs => ih _ (hstep s r hs)
    exact hrun rs orchInitState ⟨Nat.zero_le _, fun _ => rfl⟩

/-- Claim C3, witness: the theorem instantiated at a state whose counter
sits at the cap and a still-not-ready result carrying a question. -/
theorem c3_clarification_counter_witness :
    orchInv (orchTriageStep orchStateC3 orchResC3) ∧
    ((orchTriageStep orchStateC3 orchResC3).handoff_ready = true ∧
     (orchTriageStep orchStateC3 orchResC3).clarifying_question = none ∧
     (orchTriageStep orchStateC3 orchResC3).clarification_attempts = 0) :=
  ⟨c3_clarification_counter_spec.2.1 orchStateC3 orchResC3
      ⟨by decide, fun hh => absurd hh (by decide)⟩,
   c3_clarification_counter_spec.2.2.1 orchStateC3 orchResC3 (by decide) rfl rfl⟩

end VTriage
